import Mathlib

/-!
Verification of the EchoText audio payload pipeline.

The repository's orchestration layer (`App`, in the unnamed root component) calls
`decodeBase64ToUint8Array` and `pcmToWav` from `services/audioUtils` and
`generateSpeech` from `services/geminiService`.  The `audioUtils` module itself is
not present in the source tree, so its two operations are modelled from the design
document's normative contracts (base64 decoding per the standard alphabet with `=`
padding, and the exact RIFF/WAVE byte layout of section 4.2).  The error paths of
`generateSpeech` are embedded directly from `services/geminiService.ts`.

Bytes are modelled as natural numbers below 256, byte buffers as `List Nat`, and
fallible operations return `Except`.
-/

/-- The two error kinds of the core pipeline (spec section 7). -/
inductive AudioError where
  | MALFORMED_INPUT
  | PAYLOAD_TOO_LARGE
deriving DecidableEq, Repr

/-- The standard base64 alphabet, in index order. -/
def base64Alphabet : List Char :=
  ['A', 'B', 'C', 'D', 'E', 'F', 'G', 'H', 'I', 'J', 'K', 'L', 'M',
   'N', 'O', 'P', 'Q', 'R', 'S', 'T', 'U', 'V', 'W', 'X', 'Y', 'Z',
   'a', 'b', 'c', 'd', 'e', 'f', 'g', 'h', 'i', 'j', 'k', 'l', 'm',
   'n', 'o', 'p', 'q', 'r', 's', 't', 'u', 'v', 'w', 'x', 'y', 'z',
   '0', '1', '2', '3', '4', '5', '6', '7', '8', '9', '+', '/']

/-- Position of a character in a character list, or `none`. -/
def charIndexAux (c : Char) : List Char → Nat → Option Nat
  | [], _ => none
  | a :: rest, i => if a == c then some i else charIndexAux c rest (i + 1)

/-- The 6-bit value of a base64 alphabet character, or `none` if outside the alphabet. -/
def base64Index (c : Char) : Option Nat :=
  charIndexAux c base64Alphabet 0

/-- Whether a character belongs to the base64 alphabet (padding excluded). -/
def isBase64Char (c : Char) : Bool :=
  (base64Index c).isSome

/-- Reassemble bytes from a list of 6-bit values: each full group of four sextets
yields three bytes; a trailing group of three yields two bytes, of two yields one
byte, and a lone trailing sextet carries no complete byte. -/
def sextetsToBytes : List Nat → List Nat
  | a :: b :: c :: d :: rest =>
      (a * 4 + b / 16) :: ((b % 16) * 16 + c / 4) :: ((c % 4) * 64 + d) ::
        sextetsToBytes rest
  | [a, b, c] => [a * 4 + b / 16, (b % 16) * 16 + c / 4]
  | [a, b] => [a * 4 + b / 16]
  | _ => []

/-- Modelled from the spec: `decodeBase64ToUint8Array` of `services/audioUtils`
(absent from the source tree).  Per section 4.1 it fails with `MALFORMED_INPUT`
exactly when the input holds a character outside the base64 alphabet other than
the padding character, decodes by standard base64 rules otherwise, and maps the
empty string to the empty buffer. -/
def decodeBase64ToUint8Array (s : String) : Except AudioError (List Nat) :=
  if s.data.all (fun c => isBase64Char c || c == '=') then
    Except.ok (sextetsToBytes ((s.data.filter (fun c => c != '=')).filterMap base64Index))
  else
    Except.error AudioError.MALFORMED_INPUT

/-- The alphabet character for a 6-bit value. -/
def base64Char (n : Nat) : Char :=
  base64Alphabet.getD n 'A'

/-- Standard base64 encoding of a byte list, as characters: groups of three bytes
become four alphabet characters; a trailing pair becomes three characters and one
pad; a trailing single byte becomes two characters and two pads. -/
def encodeBase64Core : List Nat → List Char
  | x :: y :: z :: rest =>
      base64Char (x / 4) :: base64Char ((x % 4) * 16 + y / 16) ::
      base64Char ((y % 16) * 4 + z / 64) :: base64Char (z % 64) ::
        encodeBase64Core rest
  | [x, y] => [base64Char (x / 4), base64Char ((x % 4) * 16 + y / 16),
               base64Char ((y % 16) * 4), '=']
  | [x] => [base64Char (x / 4), base64Char ((x % 4) * 16), '=', '=']
  | [] => []

/-- Standard base64 encoding of a byte list, as a string. -/
def encodeBase64 (bs : List Nat) : String :=
  String.mk (encodeBase64Core bs)

/-- A syntactically validly-padded base64 string: length a multiple of four, at
most two trailing pad characters, and every character before the padding drawn
from the base64 alphabet. -/
def validlyPadded (s : String) : Bool :=
  let cs := s.data
  let pad := (cs.reverse.takeWhile (fun c => c == '=')).length
  (cs.length % 4 == 0) && decide (pad ≤ 2) &&
    (cs.take (cs.length - pad)).all isBase64Char

/-- The audio format descriptor (`AudioMetadata` in `src/types.ts`). -/
structure AudioMetadata where
  sampleRate : Nat
  numChannels : Nat
  bitsPerSample : Nat
deriving DecidableEq, Repr

/-- Two-byte little-endian rendering of a 16-bit header field. -/
def le16 (n : Nat) : List Nat :=
  [n % 256, n / 256 % 256]

/-- Four-byte little-endian rendering of a 32-bit header field. -/
def le32 (n : Nat) : List Nat :=
  [n % 256, n / 256 % 256, n / 65536 % 256, n / 16777216 % 256]

/-- The integer a little-endian byte list denotes. -/
def leNat (bs : List Nat) : Nat :=
  bs.foldr (fun b acc => b + 256 * acc) 0

/-- Whether the descriptor fields fit the fixed-width header fields of section
4.2: 16-bit `NumChannels`, `BlockAlign` and `BitsPerSample`; 32-bit `SampleRate`
and `ByteRate`. -/
def fieldsFit (fmt : AudioMetadata) : Bool :=
  decide (fmt.sampleRate < 4294967296) &&
  decide (fmt.sampleRate * fmt.numChannels * (fmt.bitsPerSample / 8) < 4294967296) &&
  decide (fmt.numChannels < 65536) &&
  decide (fmt.numChannels * (fmt.bitsPerSample / 8) < 65536) &&
  decide (fmt.bitsPerSample < 65536)

/-- Whether the PCM length and the descriptor fields are representable in the
header: `ChunkSize = 36 + len(pcm)` must fit the 32-bit size field, and the
descriptor fields must fit theirs. -/
def headerRepresentable (pcm : List Nat) (fmt : AudioMetadata) : Bool :=
  decide (36 + pcm.length < 4294967296) && fieldsFit fmt

/-- Bytes 8 through 39 of the WAV header: `"WAVE"`, the `"fmt "` subchunk with
its size, audio format 1 (PCM), the descriptor fields, the derived byte rate and
block align, and the `"data"` subchunk tag. -/
def wavDescBytes (fmt : AudioMetadata) : List Nat :=
  [0x57, 0x41, 0x56, 0x45] ++ [0x66, 0x6D, 0x74, 0x20] ++ le32 16 ++ le16 1 ++
  le16 fmt.numChannels ++ le32 fmt.sampleRate ++
  le32 (fmt.sampleRate * fmt.numChannels * (fmt.bitsPerSample / 8)) ++
  le16 (fmt.numChannels * (fmt.bitsPerSample / 8)) ++ le16 fmt.bitsPerSample ++
  [0x64, 0x61, 0x74, 0x61]

/-- The 44-byte RIFF/WAVE header of section 4.2 for a PCM payload of the given
length: `"RIFF"`, `ChunkSize = 36 + len(pcm)`, the descriptor bytes, and
`Subchunk2Size = len(pcm)`. -/
def wavHeader (pcmLen : Nat) (fmt : AudioMetadata) : List Nat :=
  [0x52, 0x49, 0x46, 0x46] ++ le32 (36 + pcmLen) ++ wavDescBytes fmt ++ le32 pcmLen

/-- Modelled from the spec: `pcmToWav` of `services/audioUtils` (absent from the
source tree).  Per section 4.2 it prepends the 44-byte RIFF/WAVE header to the
verbatim PCM bytes, failing with `PAYLOAD_TOO_LARGE` exactly when the PCM length
or a descriptor field is not representable in its fixed-width header field. -/
def pcmToWav (pcm : List Nat) (fmt : AudioMetadata) : Except AudioError (List Nat) :=
  if headerRepresentable pcm fmt then
    Except.ok (wavHeader pcm.length fmt ++ pcm)
  else
    Except.error AudioError.PAYLOAD_TOO_LARGE

/-- The descriptor invariant of section 3: byte-aligned bit depth, at least one
channel, positive sample rate. -/
def descriptorInvariant (fmt : AudioMetadata) : Prop :=
  fmt.bitsPerSample % 8 = 0 ∧ 1 ≤ fmt.numChannels ∧ 1 ≤ fmt.sampleRate

/-- `SAMPLE_RATE` from the constants module in the source tree. -/
def SAMPLE_RATE : Nat := 24000

/-- The descriptor the orchestration layer (`handleGenerate`) passes to
`pcmToWav`: its single call site uses
`{sampleRate: SAMPLE_RATE, numChannels: 1, bitsPerSample: 16}`. -/
def handleGenerateFormat : AudioMetadata :=
  ⟨SAMPLE_RATE, 1, 16⟩

/-- Whether the first list is a leading block of the second. -/
def listHasPre : List Char → List Char → Bool
  | [], _ => true
  | _ :: _, [] => false
  | n :: ns, h :: hs => n == h && listHasPre ns hs

/-- Whether the first list occurs as a contiguous block anywhere in the second. -/
def listHasSub (needle : List Char) : List Char → Bool
  | [] => needle.isEmpty
  | c :: rest => listHasPre needle (c :: rest) || listHasSub needle rest

/-- `hay.includes(needle)` of JavaScript strings. -/
def strHas (hay needle : String) : Bool :=
  listHasSub needle.data hay.data

/-- `String.prototype.toLowerCase`, restricted to the character mapping. -/
def lowerStr (s : String) : String :=
  String.mk (s.data.map Char.toLower)

/-- The outcome of the remote `generateContent` call as `generateSpeech`
observes it: either a response, whose first part may or may not hold inline
audio data, or a thrown error with a message. -/
inductive ApiOutcome where
  | success (audioData : Option String)
  | failure (message : String)

/-- The `catch` block of `generateSpeech` in `src/services/geminiService.ts`:
maps the caught error's message to one of the categorized error messages. -/
def categorize (isAdaptation : Bool) (errorMessage : String) : String :=
  if strHas errorMessage "429" || strHas (lowerStr errorMessage) "quota" then
    "RATE_LIMIT: System is currently under heavy load. Please wait a minute before trying again."
  else if strHas errorMessage "401" || strHas errorMessage "403" then
    "AUTH_ERROR: API authentication failed. Verify your project settings."
  else if strHas (lowerStr errorMessage) "network" || strHas (lowerStr errorMessage) "fetch" then
    "NETWORK_FAILURE: Connection lost. Check your internet connectivity."
  else if strHas (lowerStr errorMessage) "modality" || strHas errorMessage "400" then
    if isAdaptation then
      "MODALITY_ERROR: The Voice Adaptation model is currently unavailable or the audio format is unsupported."
    else
      "INVALID_ARGUMENT: The synthesis request was rejected. Please check your input parameters."
  else if strHas (lowerStr errorMessage) "safety" || strHas (lowerStr errorMessage) "blocked" then
    "POLICY_VIOLATION: Content was flagged by safety filters. Please use professional and respectful text."
  else
    "GENERIC_FAILURE: " ++
      (if errorMessage = "" then "An unexpected error occurred during synthesis." else errorMessage)

/-- `generateSpeech` of `src/services/geminiService.ts`, reduced to its error
behaviour: a missing API key fails before the `try` block; inside it, a response
without audio data raises `EMPTY_RESPONSE`, which — like any error thrown by the
remote call — is caught and categorized. -/
def generateSpeech (apiKey : String) (isAdaptation : Bool) (outcome : ApiOutcome) :
    Except String String :=
  if apiKey = "" then
    Except.error "AUTH_ERROR: API Key is missing. Please check your environment configuration."
  else
    match outcome with
    | ApiOutcome.success (some audio) => Except.ok audio
    | ApiOutcome.success none =>
        Except.error (categorize isAdaptation
          "EMPTY_RESPONSE: The model processed your request but returned no audio data.")
    | ApiOutcome.failure msg => Except.error (categorize isAdaptation msg)

/-- The fixed error codes of the service layer. -/
def errorCodes : List String :=
  ["AUTH_ERROR", "EMPTY_RESPONSE", "RATE_LIMIT", "NETWORK_FAILURE",
   "MODALITY_ERROR", "INVALID_ARGUMENT", "POLICY_VIOLATION", "GENERIC_FAILURE"]

/-- Whether a message starts with one of the fixed error codes followed by the
separator the caller's error handler splits on. -/
def startsWithCode (msg : String) : Bool :=
  errorCodes.any (fun code => listHasPre (code ++ ": ").data msg.data)

/-- The container `pcmToWav` builds for the one-byte PCM buffer `[171]` and the
deployment descriptor: header with `ChunkSize = 37`, `Subchunk2Size = 1`, sample
rate 24000, byte rate 48000, block align 2, bit depth 16, then the PCM byte. -/
def wavSample : List Nat :=
  [82, 73, 70, 70, 37, 0, 0, 0, 87, 65, 86, 69, 102, 109, 116, 32, 16, 0, 0, 0,
   1, 0, 1, 0, 192, 93, 0, 0, 128, 187, 0, 0, 2, 0, 16, 0, 100, 97, 116, 97,
   1, 0, 0, 0, 171]

/-- Decoding an alphabet character recovers its 6-bit value. -/
theorem base64Index_base64Char : ∀ n, n < 64 → base64Index (base64Char n) = some n := by
  decide

/-- Alphabet characters survive the padding filter. -/
theorem base64Char_bne_pad : ∀ n, n < 64 → (base64Char n != '=') = true := by
  decide

/-- Alphabet characters pass the alphabet test. -/
theorem isBase64Char_base64Char : ∀ n, n < 64 → isBase64Char (base64Char n) = true := by
  decide

/-- Every character the encoder emits passes the decoder's validity test. -/
theorem encodeBase64Core_all_valid :
    ∀ bs : List Nat, (∀ b ∈ bs, b < 256) →
      (encodeBase64Core bs).all (fun c => isBase64Char c || c == '=') = true
  | [], _ => rfl
  | [x], h => by
    have hx : x < 256 := h x (by simp)
    have h1 : x / 4 < 64 := by omega
    have h2 : (x % 4) * 16 < 64 := by omega
    simp [encodeBase64Core, isBase64Char_base64Char _ h1, isBase64Char_base64Char _ h2]
  | [x, y], h => by
    have hx : x < 256 := h x (by simp)
    have hy : y < 256 := h y (by simp)
    have h1 : x / 4 < 64 := by omega
    have h2 : (x % 4) * 16 + y / 16 < 64 := by omega
    have h3 : (y % 16) * 4 < 64 := by omega
    simp [encodeBase64Core, isBase64Char_base64Char _ h1, isBase64Char_base64Char _ h2,
      isBase64Char_base64Char _ h3]
  | x :: y :: z :: rest, h => by
    have hx : x < 256 := h x (by simp)
    have hy : y < 256 := h y (by simp)
    have hz : z < 256 := h z (by simp)
    have ih := encodeBase64Core_all_valid rest (fun b hb => h b (by simp [hb]))
    have h1 : x / 4 < 64 := by omega
    have h2 : (x % 4) * 16 + y / 16 < 64 := by omega
    have h3 : (y % 16) * 4 + z / 64 < 64 := by omega
    have h4 : z % 64 < 64 := by omega
    simp only [encodeBase64Core, List.all_cons, ih,
      isBase64Char_base64Char _ h1, isBase64Char_base64Char _ h2,
      isBase64Char_base64Char _ h3, isBase64Char_base64Char _ h4,
      Bool.true_or, Bool.true_and, Bool.and_true]

/-- Filtering the pads out of the encoder's output and decoding the remaining
sextets recovers the original bytes. -/
theorem sextets_of_encode :
    ∀ bs : List Nat, (∀ b ∈ bs, b < 256) →
      sextetsToBytes
        (((encodeBase64Core bs).filter (fun c => c != '=')).filterMap base64Index) = bs
  | [], _ => rfl
  | [x], h => by
    have hx : x < 256 := h x (by simp)
    have h1 : x / 4 < 64 := by omega
    have h2 : (x % 4) * 16 < 64 := by omega
    simp only [encodeBase64Core, List.filter_cons, base64Char_bne_pad _ h1,
      base64Char_bne_pad _ h2, if_true, List.filter_nil]
    simp only [List.filter_cons, bne_self_eq_false, if_false, List.filter_nil,
      List.filterMap_cons, base64Index_base64Char _ h1, base64Index_base64Char _ h2,
      List.filterMap_nil, sextetsToBytes]
    simp only [List.cons.injEq, and_true]
    omega
  | [x, y], h => by
    have hx : x < 256 := h x (by simp)
    have hy : y < 256 := h y (by simp)
    have h1 : x / 4 < 64 := by omega
    have h2 : (x % 4) * 16 + y / 16 < 64 := by omega
    have h3 : (y % 16) * 4 < 64 := by omega
    simp only [encodeBase64Core, List.filter_cons, base64Char_bne_pad _ h1,
      base64Char_bne_pad _ h2, base64Char_bne_pad _ h3, if_true, bne_self_eq_false,
      if_false, List.filter_nil, List.filterMap_cons, base64Index_base64Char _ h1,
      base64Index_base64Char _ h2, base64Index_base64Char _ h3, List.filterMap_nil,
      sextetsToBytes]
    simp only [List.cons.injEq, and_true]
    omega
  | x :: y :: z :: rest, h => by
    have hx : x < 256 := h x (by simp)
    have hy : y < 256 := h y (by simp)
    have hz : z < 256 := h z (by simp)
    have ih := sextets_of_encode rest (fun b hb => h b (by simp [hb]))
    have h1 : x / 4 < 64 := by omega
    have h2 : (x % 4) * 16 + y / 16 < 64 := by omega
    have h3 : (y % 16) * 4 + z / 64 < 64 := by omega
    have h4 : z % 64 < 64 := by omega
    simp only [encodeBase64Core, List.filter_cons, base64Char_bne_pad _ h1,
      base64Char_bne_pad _ h2, base64Char_bne_pad _ h3, base64Char_bne_pad _ h4,
      if_true, List.filterMap_cons, base64Index_base64Char _ h1,
      base64Index_base64Char _ h2, base64Index_base64Char _ h3,
      base64Index_base64Char _ h4, sextetsToBytes, ih]
    simp only [List.cons.injEq, and_true]
    omega

/-- Decoding an encoded byte buffer succeeds and recovers the buffer. -/
theorem decode_encodeBase64 (bs : List Nat) (h : ∀ b ∈ bs, b < 256) :
    decodeBase64ToUint8Array (encodeBase64 bs) = Except.ok bs := by
  have hall : (encodeBase64 bs).data.all (fun c => isBase64Char c || c == '=') = true :=
    encodeBase64Core_all_valid bs h
  unfold decodeBase64ToUint8Array
  rw [hall]
  simp only [if_true]
  exact congrArg Except.ok (sextets_of_encode bs h)

/-- A 32-bit field rendering has four bytes. -/
theorem le32_length (n : Nat) : (le32 n).length = 4 := rfl

/-- The descriptor section of the header has 32 bytes. -/
theorem wavDescBytes_length (fmt : AudioMetadata) : (wavDescBytes fmt).length = 32 := by
  simp [wavDescBytes, le16, le32]

/-- The header has 44 bytes. -/
theorem wavHeader_length (n : Nat) (fmt : AudioMetadata) : (wavHeader n fmt).length = 44 := by
  simp [wavHeader, wavDescBytes, le16, le32]

/-- A 32-bit field rendering denotes its value whenever the value fits. -/
theorem leNat_le32 (n : Nat) (h : n < 4294967296) : leNat (le32 n) = n := by
  simp only [leNat, le32, List.foldr]
  omega

/-- An encoded container decomposes after the `"RIFF"` tag. -/
theorem pcmToWav_decomp_4 (pcm : List Nat) (fmt : AudioMetadata) :
    wavHeader pcm.length fmt ++ pcm =
      [0x52, 0x49, 0x46, 0x46] ++
        (le32 (36 + pcm.length) ++ (wavDescBytes fmt ++ (le32 pcm.length ++ pcm))) := by
  simp [wavHeader, List.append_assoc]

/-- An encoded container decomposes before the `Subchunk2Size` field. -/
theorem pcmToWav_decomp_40 (pcm : List Nat) (fmt : AudioMetadata) :
    wavHeader pcm.length fmt ++ pcm =
      ([0x52, 0x49, 0x46, 0x46] ++ le32 (36 + pcm.length) ++ wavDescBytes fmt) ++
        (le32 pcm.length ++ pcm) := by
  simp [wavHeader, List.append_assoc]

/-- A successful encoding forces the representability guard. -/
theorem pcmToWav_ok_representable (pcm : List Nat) (fmt : AudioMetadata) (wav : List Nat)
    (h : pcmToWav pcm fmt = Except.ok wav) : headerRepresentable pcm fmt = true := by
  by_contra hc
  rw [Bool.not_eq_true] at hc
  simp [pcmToWav, hc] at h

/-- A successful encoding is the header followed by the verbatim PCM bytes. -/
theorem pcmToWav_ok_eq (pcm : List Nat) (fmt : AudioMetadata) (wav : List Nat)
    (h : pcmToWav pcm fmt = Except.ok wav) :
    wav = wavHeader pcm.length fmt ++ pcm := by
  have hr := pcmToWav_ok_representable pcm fmt wav h
  rw [pcmToWav, hr] at h
  simp only [if_true] at h
  exact (Except.ok.inj h).symm

/-- Bytes 4 through 7 of a successful encoding are the `ChunkSize` field. -/
theorem pcmToWav_chunkSize (pcm : List Nat) (fmt : AudioMetadata) (wav : List Nat)
    (h : pcmToWav pcm fmt = Except.ok wav) :
    List.take 4 (List.drop 4 wav) = le32 (36 + pcm.length) := by
  rw [pcmToWav_ok_eq pcm fmt wav h, pcmToWav_decomp_4,
    List.drop_left' (show ([0x52, 0x49, 0x46, 0x46] : List Nat).length = 4 from rfl),
    List.take_left' (le32_length _)]

/-- Bytes 40 through 43 of a successful encoding are the `Subchunk2Size` field. -/
theorem pcmToWav_subchunk2Size (pcm : List Nat) (fmt : AudioMetadata) (wav : List Nat)
    (h : pcmToWav pcm fmt = Except.ok wav) :
    List.take 4 (List.drop 40 wav) = le32 pcm.length := by
  rw [pcmToWav_ok_eq pcm fmt wav h, pcmToWav_decomp_40,
    List.drop_left' (show ([0x52, 0x49, 0x46, 0x46] ++ le32 (36 + pcm.length) ++
      wavDescBytes fmt).length = 40 from by simp [le32, wavDescBytes, le16]),
    List.take_left' (le32_length _)]

/-- C1: for every PCM buffer of length `N` and every descriptor satisfying the
descriptor invariant, a container returned by `pcmToWav` has length exactly
`44 + N`, its bytes at offsets 4..8 are the little-endian rendering of `36 + N`
and denote that integer, and its bytes at offsets 40..44 are the little-endian
rendering of `N` and denote `N`. -/
theorem c1_header_invariant (pcm : List Nat) (fmt : AudioMetadata)
    (_hinv : descriptorInvariant fmt) (wav : List Nat)
    (hok : pcmToWav pcm fmt = Except.ok wav) :
    wav.length = 44 + pcm.length ∧
    List.take 4 (List.drop 4 wav) = le32 (36 + pcm.length) ∧
    List.take 4 (List.drop 40 wav) = le32 pcm.length ∧
    leNat (List.take 4 (List.drop 4 wav)) = 36 + pcm.length ∧
    leNat (List.take 4 (List.drop 40 wav)) = pcm.length := by
  have hr := pcmToWav_ok_representable pcm fmt wav hok
  simp only [headerRepresentable, Bool.and_eq_true, decide_eq_true_eq] at hr
  have hfit : 36 + pcm.length < 4294967296 := hr.1
  refine ⟨?_, pcmToWav_chunkSize pcm fmt wav hok, pcmToWav_subchunk2Size pcm fmt wav hok,
    ?_, ?_⟩
  · rw [pcmToWav_ok_eq pcm fmt wav hok]
    simp [wavHeader_length]
  · rw [pcmToWav_chunkSize pcm fmt wav hok]
    exact leNat_le32 _ hfit
  · rw [pcmToWav_subchunk2Size pcm fmt wav hok]
    exact leNat_le32 _ (by omega)

/-- C1 witness: the header invariant instantiated at the one-byte PCM buffer
`[171]` and the deployment descriptor. -/
theorem c1_witness :
    wavSample.length = 44 + List.length [171] ∧
    List.take 4 (List.drop 4 wavSample) = le32 (36 + List.length [171]) ∧
    List.take 4 (List.drop 40 wavSample) = le32 (List.length [171]) ∧
    leNat (List.take 4 (List.drop 4 wavSample)) = 36 + List.length [171] ∧
    leNat (List.take 4 (List.drop 40 wavSample)) = List.length [171] :=
  c1_header_invariant [171] ⟨24000, 1, 16⟩ ⟨rfl, by decide, by decide⟩ wavSample rfl

/-- C2 counterexample: on the scenario input, bytes 24–27 of the container are
`0xC0 0x5D 0x00 0x00` — the little-endian rendering of 24000 — and not the
claimed `0x80 0x5D 0x00 0x00`, which renders 23936. -/
theorem c2_counterexample :
    Except.map (fun w => List.take 4 (List.drop 24 w))
        (pcmToWav [0x00, 0x01, 0x02, 0x03] ⟨24000, 1, 16⟩) =
      Except.ok [0xC0, 0x5D, 0x00, 0x00] ∧
    ([0xC0, 0x5D, 0x00, 0x00] : List Nat) ≠ [0x80, 0x5D, 0x00, 0x00] ∧
    leNat [0xC0, 0x5D, 0x00, 0x00] = 24000 ∧
    leNat [0x80, 0x5D, 0x00, 0x00] = 23936 :=
  ⟨rfl, by decide, rfl, rfl⟩

/-- C2 (amended): the scenario `pcmToWav([0x00,0x01,0x02,0x03],
{sampleRate: 24000, numChannels: 1, bitsPerSample: 16})` yields a 48-byte
container whose first four bytes are ASCII `"RIFF"`, whose bytes 22–23 are
`0x01 0x00`, whose bytes 24–27 are `0xC0 0x5D 0x00 0x00` (24000 little-endian),
and whose bytes 44–47 are the input PCM bytes verbatim. -/
theorem c2_scenario :
    ∃ wav, pcmToWav [0x00, 0x01, 0x02, 0x03] ⟨24000, 1, 16⟩ = Except.ok wav ∧
      wav.length = 48 ∧
      List.take 4 wav = [0x52, 0x49, 0x46, 0x46] ∧
      List.take 2 (List.drop 22 wav) = [0x01, 0x00] ∧
      List.take 4 (List.drop 24 wav) = [0xC0, 0x5D, 0x00, 0x00] ∧
      List.drop 44 wav = [0x00, 0x01, 0x02, 0x03] :=
  ⟨[82, 73, 70, 70, 40, 0, 0, 0, 87, 65, 86, 69, 102, 109, 116, 32, 16, 0, 0, 0,
    1, 0, 1, 0, 192, 93, 0, 0, 128, 187, 0, 0, 2, 0, 16, 0, 100, 97, 116, 97,
    4, 0, 0, 0, 0, 1, 2, 3], by rfl, by rfl, by rfl, by rfl, by rfl, by rfl⟩

/-- C4: `pcmToWav` succeeds exactly when the PCM length and descriptor fields
are representable in the fixed-width header fields; on the failing side it
signals `PAYLOAD_TOO_LARGE`; and every successful result is the complete
header-plus-payload container, never a partial one. -/
theorem c4_all_or_nothing (pcm : List Nat) (fmt : AudioMetadata) :
    ((∃ wav, pcmToWav pcm fmt = Except.ok wav) ↔ headerRepresentable pcm fmt = true) ∧
    (headerRepresentable pcm fmt = false →
      pcmToWav pcm fmt = Except.error AudioError.PAYLOAD_TOO_LARGE) ∧
    (∀ wav, pcmToWav pcm fmt = Except.ok wav → wav = wavHeader pcm.length fmt ++ pcm) := by
  refine ⟨⟨fun hw => ?_, fun hr => ?_⟩, fun hr => ?_,
    fun w hw => pcmToWav_ok_eq pcm fmt w hw⟩
  · obtain ⟨w, hw⟩ := hw
    exact pcmToWav_ok_representable pcm fmt w hw
  · exact ⟨wavHeader pcm.length fmt ++ pcm, by simp [pcmToWav, hr]⟩
  · simp [pcmToWav, hr]

/-- C4 witness: a descriptor whose bit depth overflows the 16-bit
`BitsPerSample` field makes `pcmToWav` fail with `PAYLOAD_TOO_LARGE`. -/
theorem c4_witness :
    pcmToWav [] ⟨24000, 1, 65536⟩ = Except.error AudioError.PAYLOAD_TOO_LARGE :=
  (c4_all_or_nothing [] ⟨24000, 1, 65536⟩).2.1 rfl

/-- C6: with any descriptor whose fields fit the header, the empty PCM buffer
yields a 44-byte container with a zero `Subchunk2Size`, and any one-byte PCM
buffer still yields a 45-byte container without error. -/
theorem c6_empty_and_odd (fmt : AudioMetadata) (hf : fieldsFit fmt = true) (b : Nat) :
    Except.map List.length (pcmToWav [] fmt) = Except.ok 44 ∧
    Except.map (fun w => List.take 4 (List.drop 40 w)) (pcmToWav [] fmt) =
      Except.ok [0, 0, 0, 0] ∧
    Except.map List.length (pcmToWav [b] fmt) = Except.ok 45 := by
  have h0 : headerRepresentable [] fmt = true := by
    simp only [headerRepresentable, hf, Bool.and_true]
    rfl
  have h1 : headerRepresentable [b] fmt = true := by
    simp only [headerRepresentable, hf, Bool.and_true]
    rfl
  have e0 : pcmToWav [] fmt = Except.ok (wavHeader 0 fmt) := by
    simp [pcmToWav, h0]
  have e1 : pcmToWav [b] fmt = Except.ok (wavHeader 1 fmt ++ [b]) := by
    simp [pcmToWav, h1]
  refine ⟨?_, ?_, ?_⟩
  · rw [e0]
    simp [Except.map, wavHeader_length]
  · have h2 := pcmToWav_subchunk2Size [] fmt (wavHeader 0 fmt) e0
    rw [e0]
    simp only [Except.map]
    rw [h2]
    rfl
  · rw [e1]
    simp [Except.map, wavHeader_length]

/-- C6 witness: the empty-buffer and one-byte-buffer properties at the
deployment descriptor with the byte 7. -/
theorem c6_witness :
    Except.map List.length (pcmToWav [] ⟨24000, 1, 16⟩) = Except.ok 44 ∧
    Except.map (fun w => List.take 4 (List.drop 40 w)) (pcmToWav [] ⟨24000, 1, 16⟩) =
      Except.ok [0, 0, 0, 0] ∧
    Except.map List.length (pcmToWav [7] ⟨24000, 1, 16⟩) = Except.ok 45 :=
  c6_empty_and_odd ⟨24000, 1, 16⟩ rfl 7

/-- C7: `pcmToWav` is deterministic — two invocations on the same
`(pcm, format)` pair yield byte-identical containers. -/
theorem c7_deterministic (pcm : List Nat) (fmt : AudioMetadata) (w1 w2 : List Nat)
    (h1 : pcmToWav pcm fmt = Except.ok w1) (h2 : pcmToWav pcm fmt = Except.ok w2) :
    w1 = w2 := by
  rw [h1] at h2
  exact Except.ok.inj h2

/-- C7 witness: determinism instantiated at the one-byte PCM buffer `[171]`. -/
theorem c7_witness : wavSample = wavSample :=
  c7_deterministic [171] ⟨24000, 1, 16⟩ wavSample wavSample rfl rfl

/-- C3: decoding fails with `MALFORMED_INPUT` exactly when the input holds a
character outside the base64 alphabet other than the padding character; the
string `"not base64 @@@"` fails that way, and the empty string decodes to the
empty buffer. -/
theorem c3_malformed (s : String) :
    (decodeBase64ToUint8Array s = Except.error AudioError.MALFORMED_INPUT ↔
      ∃ c ∈ s.data, isBase64Char c = false ∧ c ≠ '=') ∧
    decodeBase64ToUint8Array "not base64 @@@" = Except.error AudioError.MALFORMED_INPUT ∧
    decodeBase64ToUint8Array "" = Except.ok [] := by
  refine ⟨?_, by rfl, by rfl⟩
  have key : decodeBase64ToUint8Array s = Except.error AudioError.MALFORMED_INPUT ↔
      s.data.all (fun c => isBase64Char c || c == '=') = false := by
    by_cases hb : s.data.all (fun c => isBase64Char c || c == '=')
    · simp [decodeBase64ToUint8Array, hb]
    · simp [decodeBase64ToUint8Array, hb]
  rw [key, List.all_eq_false]
  constructor
  · rintro ⟨c, hc, hp⟩
    refine ⟨c, hc, ?_, ?_⟩
    · cases hcc : isBase64Char c
      · rfl
      · exact absurd (by simp [hcc]) hp
    · intro he
      exact hp (by simp [he])
  · rintro ⟨c, hc, h1, h2⟩
    refine ⟨c, hc, ?_⟩
    simp [h1, h2]

/-- C3 witness: the malformed-input equivalence instantiated at
`"not base64 @@@"`. -/
theorem c3_witness :
    decodeBase64ToUint8Array "not base64 @@@" = Except.error AudioError.MALFORMED_INPUT :=
  (c3_malformed "not base64 @@@").2.1

/-- C5 counterexample: `"AB=="` is validly padded, decodes without error to the
single byte `0x00`, yet re-encoding that byte yields `"AA=="`, not `"AB=="` —
the round trip fails on validly-padded input whose unused trailing bits are not
zero. -/
theorem c5_counterexample :
    validlyPadded "AB==" = true ∧
    decodeBase64ToUint8Array "AB==" = Except.ok [0] ∧
    Except.map encodeBase64 (decodeBase64ToUint8Array "AB==") = Except.ok "AA==" ∧
    ("AA==" : String) ≠ "AB==" :=
  ⟨by rfl, by rfl, by rfl, by decide⟩

/-- C5 (amended): for every base64 string that is the canonical encoding of a
byte buffer, decoding it and re-encoding the resulting bytes yields the
original string. -/
theorem c5_canonical_roundtrip (s : String) (bs : List Nat)
    (hb : ∀ b ∈ bs, b < 256) (hs : encodeBase64 bs = s) :
    Except.map encodeBase64 (decodeBase64ToUint8Array s) = Except.ok s := by
  subst hs
  rw [decode_encodeBase64 bs hb]
  rfl

/-- C5 witness: the canonical round trip instantiated at `"SGVsbG8="`, the
encoding of the bytes of `"Hello"`. -/
theorem c5_witness :
    Except.map encodeBase64 (decodeBase64ToUint8Array "SGVsbG8=") =
      Except.ok "SGVsbG8=" :=
  c5_canonical_roundtrip "SGVsbG8=" [0x48, 0x65, 0x6C, 0x6C, 0x6F] (by decide) (by rfl)

/-- C8: `decode("SGVsbG8=")` yields exactly the five ASCII bytes of `"Hello"`. -/
theorem c8_decode_hello :
    decodeBase64ToUint8Array "SGVsbG8=" = Except.ok [0x48, 0x65, 0x6C, 0x6C, 0x6F] := by
  rfl

/-- C9: the descriptor the orchestration layer passes to `pcmToWav` is the
fixed deployment value `{sampleRate: 24000, numChannels: 1, bitsPerSample: 16}`,
and it satisfies the descriptor invariant. -/
theorem c9_fixed_descriptor :
    handleGenerateFormat = ⟨24000, 1, 16⟩ ∧ descriptorInvariant handleGenerateFormat :=
  ⟨rfl, rfl, by decide, by decide⟩

/-- A list is a leading block of itself followed by anything. -/
theorem listHasPre_self_append : ∀ a b : List Char, listHasPre a (a ++ b) = true
  | [], _ => rfl
  | c :: cs, b => by simp [listHasPre, listHasPre_self_append cs b]

/-- Any `GENERIC_FAILURE`-wrapped detail starts with a fixed code. -/
theorem startsWithCode_generic (d : String) :
    startsWithCode ("GENERIC_FAILURE: " ++ d) = true := by
  have h1 : listHasPre ("GENERIC_FAILURE" ++ ": ").data ("GENERIC_FAILURE: " ++ d).data
      = true := by
    rw [String.data_append "GENERIC_FAILURE: " d]
    exact listHasPre_self_append ("GENERIC_FAILURE" ++ ": ").data d.data
  unfold startsWithCode errorCodes
  simp only [List.any_cons, List.any_nil, h1, Bool.or_true, Bool.true_or, Bool.or_false]

/-- Every message the `catch` block of `generateSpeech` produces starts with a
fixed code followed by the separator. -/
theorem categorize_starts (isA : Bool) (msg : String) :
    startsWithCode (categorize isA msg) = true := by
  unfold categorize
  repeat' split
  all_goals first
    | exact startsWithCode_generic _
    | rfl

/-- C10: every error `generateSpeech` produces, on every failure path, has a
message that begins with one of the fixed codes followed by the separator
`": "` on which the caller's error handler splits. -/
theorem c10_error_format (apiKey : String) (isA : Bool) (outcome : ApiOutcome)
    (msg : String) (h : generateSpeech apiKey isA outcome = Except.error msg) :
    startsWithCode msg = true := by
  unfold generateSpeech at h
  by_cases hk : apiKey = ""
  · rw [if_pos hk] at h
    rw [← Except.error.inj h]
    rfl
  · rw [if_neg hk] at h
    cases outcome with
    | success audioData =>
      cases audioData with
      | some a => exact Except.noConfusion h
      | none =>
        rw [← Except.error.inj h]
        exact categorize_starts isA _
    | failure m =>
      rw [← Except.error.inj h]
      exact categorize_starts isA m

/-- C10 witness: the error format instantiated on the missing-API-key path. -/
theorem c10_witness :
    startsWithCode
      "AUTH_ERROR: API Key is missing. Please check your environment configuration."
      = true :=
  c10_error_format "" false (ApiOutcome.failure "boom")
    "AUTH_ERROR: API Key is missing. Please check your environment configuration."
    (by rfl)
